import Mathlib

/-!
Verification development for the eagle-harbor-monitor scrape → dedupe →
classify → notify pipeline.  The repository ships the SQL schema
(`src/database/schema.sql`), the Next.js frontend and deployment scripts;
the backend pipeline (ingest, classifier gateway, dispatcher, token
consumption) is described by the specification but its Python sources are
not in the tree, so those operations are modelled here from the
specification's contracts (each such definition says so in its doc
comment).  Frontend logic that is present (`getPriorityBadge` in
`src/frontend/src/components/LatestAlerts.tsx`) is embedded directly from
the source.
-/

namespace EagleHarbor

/-- Article category enum (spec §3: policy/meeting/legislation/
environmental/community/development; schema column `articles.category`). -/
inductive Category where
  | policy | meeting | legislation | environmental | community | development
deriving DecidableEq, Repr

/-- Region tag enum (spec §3: regionA/regionB/both/unclear; schema column
`articles.county`). -/
inductive Region where
  | regionA | regionB | both | unclear
deriving DecidableEq, Repr

/-- Classification lifecycle state of an article (spec §3 / §4.3 state
machine; realized in the schema by the `articles.analyzed` flag). -/
inductive CState where
  | unclassified | classified | classificationFailed
deriving DecidableEq, Repr

/-- Durable article row (schema `articles` table, spec §3 **Article**),
including the fallback marker field the spec requires so a fallback
classification is distinguishable from a real one. -/
structure Article where
  title : String
  url : String
  summary : Option String
  content : String
  source : String
  published_date : Option Nat
  discovered_date : Nat
  classification_state : CState
  priority_score : Option Nat
  relevance_score : Option Nat
  category : Option Category
  county : Option Region
  event_date : Option Nat
  notified : Bool
  is_fallback : Bool
deriving DecidableEq, Repr

/-- Ephemeral candidate record produced by a source adapter (spec §3
**CandidateRecord**). -/
structure CandidateRecord where
  source_name : String
  url : String
  title : String
  raw_body : String
  discovered_at : Nat
deriving DecidableEq, Repr

/-! ### URL normalization (spec §4.2, glossary **Canonical URL**)

Modelled from the spec: the backend's URL canonicalizer is not in the
tree; per the spec the dedup key is "the canonical URL after
normalization (strip tracking query parameters, lowercase scheme/host)".
Implemented on character lists so it evaluates by kernel reduction. -/

/-- ASCII lowercase of a single character. -/
def asciiLower (c : Char) : Char :=
  if 'A' ≤ c && c ≤ 'Z' then Char.ofNat (c.toNat + 32) else c

/-- `hasPrefixChars p l` is true when `p` is an initial segment of `l`. -/
def hasPrefixChars : List Char → List Char → Bool
  | [], _ => true
  | _ :: _, [] => false
  | p :: ps, c :: cs => p == c && hasPrefixChars ps cs

/-- Drop the pattern `p` from the front of `l` when it is a prefix. -/
def dropPrefixChars : List Char → List Char → Option (List Char)
  | [], l => some l
  | _ :: _, [] => none
  | p :: ps, c :: cs => if p = c then dropPrefixChars ps cs else none

/-- Split `l` at the first occurrence of the pattern `pat`, returning the
part before and the part after (the pattern itself removed). -/
def breakOnChars (pat : List Char) : List Char → Option (List Char × List Char)
  | [] => match dropPrefixChars pat [] with
      | some rest => some ([], rest)
      | none => none
  | c :: cs =>
    match dropPrefixChars pat (c :: cs) with
    | some rest => some ([], rest)
    | none =>
      match breakOnChars pat cs with
      | some (pre, post) => some (c :: pre, post)
      | none => none

/-- Split a character list on a separator character. -/
def splitOnChar (sep : Char) : List Char → List (List Char)
  | [] => [[]]
  | c :: cs =>
    let r := splitOnChar sep cs
    if c = sep then [] :: r
    else match r with
      | [] => [[c]]
      | h :: t => (c :: h) :: t

/-- Tracking query keys stripped during normalization (spec glossary:
"tracking parameters stripped"): any `utm*` key plus common click ids. -/
def trackingKeys : List (List Char) :=
  ["fbclid".toList, "gclid".toList, "mc_cid".toList, "mc_eid".toList, "ref".toList]

/-- A query parameter (as `key=value` characters) is a tracking parameter
when its key starts with `utm` or is one of the known tracking keys. -/
def isTrackingParam (p : List Char) : Bool :=
  let key := match breakOnChars ['='] p with
    | some (k, _) => k
    | none => p
  hasPrefixChars "utm".toList key || trackingKeys.any (fun k => k == key)

/-- Keep only the non-tracking parameters of a query string. -/
def stripTracking (query : List Char) : List (List Char) :=
  (splitOnChar '&' query).filter (fun p => !isTrackingParam p)

/-- Re-join query parameters with `&`. -/
def joinParams : List (List Char) → List Char
  | [] => []
  | [p] => p
  | p :: ps => p ++ '&' :: joinParams ps

/-- Modelled from the spec: canonical URL normalization (spec §4.2 and
glossary) — the backend canonicalizer is not in the tree.  Lowercases the
scheme and host and strips tracking query parameters; a string without a
`://` separator is returned unchanged. -/
def normalizeUrlChars (l : List Char) : List Char :=
  match breakOnChars "://".toList l with
  | none => l
  | some (scheme, rest) =>
    let (host, pathq) :=
      match breakOnChars ['/'] rest with
      | none => (rest, ([] : List Char))
      | some (h, pq) => (h, '/' :: pq)
    let (path, params) :=
      match breakOnChars ['?'] pathq with
      | none => (pathq, ([] : List (List Char)))
      | some (p, q) => (p, stripTracking q)
    let query := match params with
      | [] => []
      | ps => '?' :: joinParams ps
    scheme.map asciiLower ++ "://".toList ++ host.map asciiLower ++ path ++ query

/-- Canonical URL of a raw source URL. -/
def normalizeUrl (s : String) : String :=
  String.mk (normalizeUrlChars s.toList)

/-! ### Deduplication & ingest (spec §4.2)

Modelled from the spec: `ingest(candidate) -> Inserted | AlreadyExists |
Rejected(reason)`; the backend ingest module is not in the tree.  The
articles store is a list of rows; the schema's `UNIQUE` constraint on
`articles.url` is realized by the membership check. -/

/-- Result of one ingest call (spec §4.2). -/
inductive InsertResult where
  | inserted
  | alreadyExists
  | rejected (reason : String)
deriving DecidableEq, Repr

/-- The fresh `Unclassified` article created for an accepted candidate
(spec §4.2: "On `Inserted`, the Article is created in `Unclassified`
state"). -/
def mkArticle (c : CandidateRecord) (u : String) : Article :=
  { title := c.title
    url := u
    summary := none
    content := c.raw_body
    source := c.source_name
    published_date := none
    discovered_date := c.discovered_at
    classification_state := .unclassified
    priority_score := none
    relevance_score := none
    category := none
    county := none
    event_date := none
    notified := false
    is_fallback := false }

/-- Modelled from the spec (§4.2): ingest one candidate into the articles
store.  Rejects a candidate with an empty title or URL, reports
`alreadyExists` (leaving the store unchanged) when the canonical URL is
already present, and otherwise appends a fresh `Unclassified` row keyed by
the canonical URL. -/
def ingest (st : List Article) (c : CandidateRecord) : List Article × InsertResult :=
  if c.title = "" then (st, .rejected "missing title")
  else if c.url = "" then (st, .rejected "missing url")
  else
    let u := normalizeUrl c.url
    if st.any (fun a => a.url == u) then (st, .alreadyExists)
    else (st ++ [mkArticle c u], .inserted)

/-- Number of stored rows whose canonical URL is `u`. -/
def countUrl (st : List Article) (u : String) : Nat :=
  (st.filter (fun a => a.url == u)).length

/-! ### Classifier gateway (spec §4.3)

Modelled from the spec: the backend classifier gateway (timeout, bounded
retry, schema validation, deterministic keyword fallback) is not in the
tree.  The external LLM collaborator is a function from the attempt index
to an outcome, which lets one run model a call that first rate-limits and
then succeeds. -/

/-- Fixed classification schema returned by the collaborator
(spec §4.3 `Classification`). -/
structure Classification where
  relevance_score : Nat
  priority_score : Nat
  category : Category
  region_tag : Region
  summary : String
  key_points : List String
deriving DecidableEq, Repr

/-- One collaborator call outcome: a (possibly schema-invalid) payload, a
timeout, a retryable rate-limit/5xx signal, or malformed (non-schema)
output. -/
inductive CollabResult where
  | ok (c : Classification)
  | timeout
  | rateLimited
  | serverError
  | malformed
deriving DecidableEq, Repr

/-- Retryable collaborator failures (spec §4.3: rate-limit / 5xx and the
gateway's own timeout); malformed output is a non-retryable hard
failure. -/
def retryable : CollabResult → Bool
  | .timeout => true
  | .rateLimited => true
  | .serverError => true
  | _ => false

/-- Schema validation at the boundary (spec §4.3 / §3: `priority_score`
in 1–10, `relevance_score` in 0–10). -/
def validSchema (c : Classification) : Bool :=
  1 ≤ c.priority_score && c.priority_score ≤ 10 && c.relevance_score ≤ 10

/-- Substring test on lowercased text, used by the fallback scorer. -/
def containsKeyword (text kw : String) : Bool :=
  (breakOnChars kw.toList (text.toList.map asciiLower)).isSome

/-- Keyword list of the deterministic fallback scorer (spec §4.3 and
design note: "Ad hoc keyword-list fallback logic → implement as a pure,
deterministic function"). -/
def fallbackKeywords : List String :=
  ["data center", "moratorium", "zoning", "hearing", "planning board",
   "legislation", "environmental", "amendment", "meeting"]

/-- Modelled from the spec (§4.3): the deterministic keyword/heuristic
fallback scorer.  Pure function of the article text: counts keyword hits,
derives a priority/relevance score (always ≥ 1, capped at 10) and a
category, so that "some classification always exists". -/
def fallbackClassify (text : String) : Classification :=
  let hits := (fallbackKeywords.filter (fun k => containsKeyword text k)).length
  { relevance_score := min 10 (2 * hits)
    priority_score := min 10 (1 + 2 * hits)
    category :=
      if containsKeyword text "meeting" || containsKeyword text "hearing" then .meeting
      else if containsKeyword text "legislation" || containsKeyword text "amendment" then .legislation
      else if containsKeyword text "environmental" then .environmental
      else .community
    region_tag := .unclear
    summary := ""
    key_points := [] }

/-- Gateway outcome: a real collaborator classification or the fallback
path (spec design note §9: tagged union rather than loosely-typed dict). -/
inductive ClassifyOutcome where
  | real (c : Classification)
  | fallback (c : Classification)
deriving DecidableEq, Repr

/-- Maximum retries of the gateway (spec §9 open question: a bounded
tunable; 2 retries). -/
def maxRetries : Nat := 2

/-- Modelled from the spec (§4.3): the gateway's attempt loop.  `i` is the
attempt index, `fuel` the remaining attempts.  Valid collaborator output
is a real classification; malformed or schema-invalid output falls back
immediately; retryable failures consume fuel; exhausted fuel falls back. -/
def classifyLoop (collab : Nat → CollabResult) (text : String) : Nat → Nat → ClassifyOutcome
  | _, 0 => .fallback (fallbackClassify text)
  | i, fuel + 1 =>
    match collab i with
    | .ok c => if validSchema c then .real c else .fallback (fallbackClassify text)
    | r =>
      if retryable r then classifyLoop collab text (i + 1) fuel
      else .fallback (fallbackClassify text)

/-- Modelled from the spec (§4.3): `classify(article_text)` with the
bounded retry budget. -/
def classify (collab : Nat → CollabResult) (text : String) : ClassifyOutcome :=
  classifyLoop collab text 0 (maxRetries + 1)

/-- Text handed to the classifier: title plus body. -/
def articleText (a : Article) : String :=
  a.title ++ " " ++ a.content

/-- Write a gateway outcome into the article row: a real classification
moves it to `Classified`, the fallback path to `ClassificationFailed` with
the fallback marker set; both store the scores and category (spec §4.3). -/
def applyClassification (a : Article) : ClassifyOutcome → Article
  | .real c =>
    { a with classification_state := .classified
             priority_score := some c.priority_score
             relevance_score := some c.relevance_score
             category := some c.category
             county := some c.region_tag
             summary := some c.summary
             is_fallback := false }
  | .fallback c =>
    { a with classification_state := .classificationFailed
             priority_score := some c.priority_score
             relevance_score := some c.relevance_score
             category := some c.category
             county := some c.region_tag
             summary := some c.summary
             is_fallback := true }

/-- Modelled from the spec (§4.3): one run of the classify pipeline over
one article. -/
def runClassifyPipeline (collab : Nat → CollabResult) (a : Article) : Article :=
  applyClassification a (classify collab (articleText a))

/-! ### Subscribers, verification and unsubscribe (schema `subscribers`,
spec §3 **Subscriber**, §4.5, §7 `TokenReplay`) -/

/-- Subscriber row (schema `subscribers` table). -/
structure Subscriber where
  email : String
  verified : Bool
  verification_token : Option String
  unsubscribe_token : String
  subscribed_at : Nat
  is_active : Bool
deriving DecidableEq, Repr

/-- Outcome of a verification-token consumption attempt (spec §7: replay
of an already-null token is reported as "already verified", not a generic
error). -/
inductive VerifyResult where
  | verifiedOk
  | alreadyVerified
  | invalidToken
deriving DecidableEq, Repr

/-- Modelled from the spec (§4.5, §7): consume a verification token
against one subscriber row.  A live matching token atomically flips
`verified := true` and nulls the token in the same update; an attempt on
a subscriber whose token is already consumed is rejected as
`alreadyVerified`; otherwise the token is invalid. -/
def verifySubscriber (s : Subscriber) (tok : String) : Subscriber × VerifyResult :=
  match s.verification_token with
  | some t =>
    if t = tok then
      ({ s with verified := true, verification_token := none }, .verifiedOk)
    else (s, .invalidToken)
  | none =>
    if s.verified then (s, .alreadyVerified) else (s, .invalidToken)

/-- Modelled from the spec (§3): unsubscribe flips `is_active` to false
on the row whose permanent unsubscribe token matches; rows are never
hard-deleted.  (The frontend page
`src/frontend/src/app/unsubscribe/page.tsx` calls the backend
`/api/unsubscribe/{token}` endpoint, which is not in the tree.) -/
def unsubOne (tok : String) (s : Subscriber) : Subscriber :=
  if s.unsubscribe_token = tok then { s with is_active := false } else s

/-- Modelled from the spec (§3): unsubscribe over the whole subscriber
store — an update, never a delete. -/
def unsubscribeByToken (store : List Subscriber) (tok : String) : List Subscriber :=
  store.map (unsubOne tok)

/-- Modelled from the spec (§4.5): verification over the whole subscriber
store — an update, never a delete. -/
def verifyByToken (store : List Subscriber) (tok : String) : List Subscriber :=
  store.map (fun s => (verifySubscriber s tok).1)

/-! ### Notification dispatcher (spec §4.5, schema `alerts_sent`)

Modelled from the spec: the backend dispatcher is not in the tree.  An
`AlertRecord` row is the `alerts_sent` audit row; because §4.5 requires
partial success to be recorded precisely ("only the subset that actually
succeeded is written"), the `sent_to`/`article_ids` coverage is carried as
the explicit list of (recipient, article) sends. -/

/-- Append-only audit row (schema `alerts_sent`; spec §3 **AlertRecord**).
`sends` lists the (recipient email, article id) pairs the row covers. -/
structure AlertRecord where
  subject : String
  alert_type : String
  sends : List (String × Nat)
  sent_at : Nat
deriving DecidableEq, Repr

/-- Dispatcher-visible state: the subscriber store and the append-only
alert log. -/
structure DispatchState where
  subs : List Subscriber
  log : List AlertRecord
deriving Repr

/-- Eligibility rule (spec §4.5: recipients = subscribers where
`verified=true AND is_active=true`; never relaxed). -/
def eligible (s : Subscriber) : Bool :=
  s.verified && s.is_active

/-- `coveredBy r c e a` holds when audit row `r` records a send of article
`a` to recipient `e` under alert class `c`. -/
def coveredBy (r : AlertRecord) (c : String) (e : String) (a : Nat) : Bool :=
  r.alert_type == c && (r.sends.any (fun p => p == (e, a)))

/-- The log records a prior send of article `a` to `e` under class `c`. -/
def alreadySent (log : List AlertRecord) (c : String) (e : String) (a : Nat) : Bool :=
  log.any (fun r => coveredBy r c e a)

/-- Number of audit rows covering the (recipient, article, class)
triple. -/
def countCovering (log : List AlertRecord) (c : String) (e : String) (a : Nat) : Nat :=
  (log.filter (fun r => coveredBy r c e a)).length

/-- Modelled from the spec (§4.5): the (recipient, article) pairs one
dispatch sweep sends — eligible subscribers crossed with the candidate
articles, minus every pair the log already covers under this class. -/
def dispatchPairs (subs : List Subscriber) (log : List AlertRecord)
    (c : String) (arts : List Nat) : List (String × Nat) :=
  (subs.filter eligible).flatMap (fun s =>
    (arts.filter (fun a => !alreadySent log c s.email a)).map (fun a => (s.email, a)))

/-- Modelled from the spec (§4.5): one dispatch sweep.  Computes the
not-yet-covered eligible pairs and appends one audit row recording exactly
those sends. -/
def dispatch (c : String) (subject : String) (arts : List Nat) (t : Nat)
    (st : DispatchState) : DispatchState :=
  { st with log := st.log ++ [{ subject := subject
                                alert_type := c
                                sends := dispatchPairs st.subs st.log c arts
                                sent_at := t }] }

/-! ### Per-article pipeline step relation (spec §4.3 state machine, §5)

Modelled from the spec: the sweeps that mutate an article after ingest.
The classification transitions are exactly those of §4.3 —
`Unclassified → Classified` on collaborator success,
`Unclassified → ClassificationFailed` on the fallback path, and
`ClassificationFailed → Classified` on a manual or scheduled re-run — and
the dispatcher sweep may flip the `notified` flag (schema
`articles.notified`) without touching classification fields. -/

/-- One pipeline step on a single article row. -/
inductive PipeStep : Article → Article → Prop where
  | classifySuccess (a : Article) (c : Classification) :
      a.classification_state = .unclassified → validSchema c = true →
      PipeStep a (applyClassification a (.real c))
  | classifyFallback (a : Article) (c : Classification) :
      a.classification_state = .unclassified →
      PipeStep a (applyClassification a (.fallback c))
  | rerunSuccess (a : Article) (c : Classification) :
      a.classification_state = .classificationFailed → validSchema c = true →
      PipeStep a (applyClassification a (.real c))
  | markNotified (a : Article) :
      PipeStep a { a with notified := true }

/-- Executions of the pipeline: the reflexive–transitive closure of the
step relation. -/
def PipeReaches (a b : Article) : Prop :=
  Relation.ReflTransGen PipeStep a b

/-! ### Article-list priority badge
(`src/frontend/src/components/LatestAlerts.tsx`, `getPriorityBadge`) -/

/-- The badge variants rendered by the article list. -/
inductive Badge where
  | critical | high | medium
deriving DecidableEq, Repr

/-- `getPriorityBadge` from `LatestAlerts.tsx`: `null` for a falsy
priority (JS `!priority`: `null` or `0`), CRITICAL for `>= 8`, HIGH for
`>= 6`, MEDIUM otherwise. -/
def getPriorityBadge (priority : Option Int) : Option Badge :=
  match priority with
  | none => none
  | some p =>
    if p = 0 then none
    else if p ≥ 8 then some .critical
    else if p ≥ 6 then some .high
    else some .medium

/-! ## Concrete sample data used by the witness theorems -/

/-- Candidate of the spec's dedup scenario, first tracking variant. -/
def exampleCandidate1 : CandidateRecord :=
  { source_name := "news", url := "http://x/a?utm=1", title := "A"
    raw_body := "b", discovered_at := 1 }

/-- Candidate of the spec's dedup scenario, second tracking variant. -/
def exampleCandidate2 : CandidateRecord :=
  { source_name := "news", url := "http://x/a?utm=2", title := "A"
    raw_body := "b", discovered_at := 2 }

/-- An unverified subscriber holding a live verification token. -/
def sampleSub : Subscriber :=
  { email := "u@example.com", verified := false, verification_token := some "v1"
    unsubscribe_token := "u1", subscribed_at := 0, is_active := true }

/-- A verified, active subscriber. -/
def sampleSub2 : Subscriber :=
  { email := "u@example.com", verified := true, verification_token := none
    unsubscribe_token := "u1", subscribed_at := 0, is_active := true }

/-- Dispatcher state with one eligible subscriber and an empty alert log. -/
def sampleDState : DispatchState := { subs := [sampleSub2], log := [] }

/-- The article of the spec's forced-timeout scenario. -/
def planningArticle : Article :=
  { title := "Planning Board Meeting Notice", url := "http://x/p", summary := none
    content := "Notice of public hearing", source := "civic", published_date := none
    discovered_date := 3, classification_state := .unclassified, priority_score := none
    relevance_score := none, category := none, county := none, event_date := none
    notified := false, is_fallback := false }

/-- A fully classified article row. -/
def classifiedArticle : Article :=
  { title := "T", url := "http://x/t", summary := none, content := "c"
    source := "news", published_date := none, discovered_date := 0
    classification_state := .classified, priority_score := some 9
    relevance_score := some 8, category := some .policy, county := some .regionA
    event_date := none, notified := false, is_fallback := false }

/-! ## Shared lemmas -/

/-- `countUrl` distributes over store append. -/
theorem countUrl_append (s t : List Article) (u : String) :
    countUrl (s ++ t) u = countUrl s u + countUrl t u := by
  simp [countUrl, List.filter_append]

/-- A store holding no row with URL `u` fails the ingest membership
check. -/
theorem any_url_false_of_countUrl_zero (st : List Article) (u : String)
    (h : countUrl st u = 0) : st.any (fun a => a.url == u) = false := by
  simp only [countUrl, List.length_eq_zero, List.filter_eq_nil_iff] at h
  simp only [List.any_eq_false]
  intro a ha
  exact h a ha

/-- Every pair a dispatch sweep sends comes from an eligible subscriber, a
candidate article, and a triple the log did not already cover. -/
theorem mem_dispatchPairs (subs : List Subscriber) (log : List AlertRecord)
    (c : String) (arts : List Nat) (e : String) (a : Nat)
    (h : (e, a) ∈ dispatchPairs subs log c arts) :
    (∃ s ∈ subs, s.email = e ∧ eligible s = true) ∧
    a ∈ arts ∧ alreadySent log c e a = false := by
  simp only [dispatchPairs, List.mem_flatMap, List.mem_filter, List.mem_map,
    Prod.mk.injEq] at h
  obtain ⟨s, ⟨hs, hel⟩, a', ⟨ha', hsent⟩, he, ha⟩ := h
  subst he
  subst ha
  exact ⟨⟨s, hs, rfl, hel⟩, ha', by simpa using hsent⟩

/-- `countCovering` distributes over log append. -/
theorem countCovering_append (l l' : List AlertRecord) (c e : String) (a : Nat) :
    countCovering (l ++ l') c e a = countCovering l c e a + countCovering l' c e a := by
  simp [countCovering, List.filter_append]

/-- Coverage count of a one-row log. -/
theorem countCovering_singleton (r : AlertRecord) (c e : String) (a : Nat) :
    countCovering [r] c e a = if coveredBy r c e a then 1 else 0 := by
  simp only [countCovering, List.filter]
  cases coveredBy r c e a <;> simp

/-- A triple the log does not report as already sent has coverage count
zero. -/
theorem alreadySent_false_countCovering (log : List AlertRecord) (c e : String) (a : Nat)
    (h : alreadySent log c e a = false) : countCovering log c e a = 0 := by
  simp only [alreadySent, List.any_eq_false] at h
  simp only [countCovering, List.length_eq_zero, List.filter_eq_nil_iff]
  exact h

/-- One dispatch sweep preserves the at-most-once coverage invariant for
every (class, recipient, article) triple. -/
theorem dispatch_preserves_at_most_once (st : DispatchState) (c subj : String)
    (arts : List Nat) (t : Nat) (c' e : String) (a : Nat)
    (h : countCovering st.log c' e a ≤ 1) :
    countCovering (dispatch c subj arts t st).log c' e a ≤ 1 := by
  have hlog : (dispatch c subj arts t st).log
      = st.log ++ [⟨subj, c, dispatchPairs st.subs st.log c arts, t⟩] := rfl
  rw [hlog, countCovering_append, countCovering_singleton]
  cases hc : coveredBy ⟨subj, c, dispatchPairs st.subs st.log c arts, t⟩ c' e a
  · simpa using h
  · have hc2 : (c == c') = true ∧
        (dispatchPairs st.subs st.log c arts).any (fun p => p == (e, a)) = true := by
      simpa [coveredBy, Bool.and_eq_true] using hc
    have hceq : c = c' := by simpa using hc2.1
    have hmem : (e, a) ∈ dispatchPairs st.subs st.log c arts := by
      have h3 := hc2.2
      simp only [List.any_eq_true, beq_iff_eq] at h3
      obtain ⟨p, hp, rfl⟩ := h3
      exact hp
    obtain ⟨_, _, hsent⟩ := mem_dispatchPairs _ _ _ _ _ _ hmem
    have h0 : countCovering st.log c e a = 0 :=
      alreadySent_false_countCovering _ _ _ _ hsent
    subst hceq
    rw [h0]
    simp

/-- The classification pipeline writes only terminal states. -/
theorem applyClassification_terminal (a : Article) (o : ClassifyOutcome) :
    (applyClassification a o).classification_state = .classified ∨
    (applyClassification a o).classification_state = .classificationFailed := by
  cases o <;> simp [applyClassification]

/-- The only pipeline step enabled on a `Classified` article is the
dispatcher's `notified` flip. -/
theorem pipeStep_from_classified (a b : Article) (h : PipeStep a b)
    (hc : a.classification_state = .classified) :
    b = { a with notified := true } := by
  cases h with
  | classifySuccess c h1 h2 => rw [hc] at h1; exact absurd h1 (by simp)
  | classifyFallback c h1 => rw [hc] at h1; exact absurd h1 (by simp)
  | rerunSuccess c h1 h2 => rw [hc] at h1; exact absurd h1 (by simp)
  | markNotified => rfl

/-! ## Claim theorems -/

/-- Claim C1: ingest is idempotent on the dedup key — for a candidate
whose canonical URL is not yet stored, the first ingest returns
`Inserted`, the second returns `AlreadyExists` and leaves the store
unchanged, and exactly one row with that canonical URL exists. -/
theorem ingest_idempotent_on_canonical_url (st : List Article) (c : CandidateRecord)
    (ht : c.title ≠ "") (hu : c.url ≠ "")
    (hnew : countUrl st (normalizeUrl c.url) = 0) :
    (ingest st c).2 = .inserted ∧
    (ingest (ingest st c).1 c).2 = .alreadyExists ∧
    (ingest (ingest st c).1 c).1 = (ingest st c).1 ∧
    countUrl (ingest st c).1 (normalizeUrl c.url) = 1 := by
  have hany := any_url_false_of_countUrl_zero st _ hnew
  have h1 : ingest st c = (st ++ [mkArticle c (normalizeUrl c.url)], .inserted) := by
    simp [ingest, ht, hu, hany]
  have hcount : countUrl (st ++ [mkArticle c (normalizeUrl c.url)])
      (normalizeUrl c.url) = 1 := by
    rw [countUrl_append, hnew]
    simp [countUrl, mkArticle]
  have hany2 : (st ++ [mkArticle c (normalizeUrl c.url)]).any
      (fun a => a.url == normalizeUrl c.url) = true := by
    simp [List.any_append, mkArticle]
  have h2 : ingest (st ++ [mkArticle c (normalizeUrl c.url)]) c
      = (st ++ [mkArticle c (normalizeUrl c.url)], .alreadyExists) := by
    simp [ingest, ht, hu, hany2]
  rw [h1]
  exact ⟨rfl, by rw [h2], by rw [h2], hcount⟩

/-- Witness for C1: ingesting the same candidate twice into an empty
store. -/
theorem ingest_idempotent_on_canonical_url_witness :
    (ingest [] exampleCandidate1).2 = .inserted ∧
    (ingest (ingest [] exampleCandidate1).1 exampleCandidate1).2 = .alreadyExists ∧
    (ingest (ingest [] exampleCandidate1).1 exampleCandidate1).1
      = (ingest [] exampleCandidate1).1 ∧
    countUrl (ingest [] exampleCandidate1).1 (normalizeUrl exampleCandidate1.url) = 1 :=
  ingest_idempotent_on_canonical_url [] exampleCandidate1
    (by decide) (by decide) (by decide)

/-- Claim C2: at-most-once alert delivery — dispatching twice over the
same pending batch never yields two `AlertRecord` rows covering the same
(subscriber, article, alert class) triple, and the sweep skips every pair
the log already covers under that class. -/
theorem dispatch_at_most_once_delivery (st : DispatchState)
    (c subj₁ subj₂ : String) (arts : List Nat) (t₁ t₂ : Nat)
    (c' e : String) (a : Nat)
    (hinv : countCovering st.log c' e a ≤ 1) :
    countCovering
      (dispatch c subj₂ arts t₂ (dispatch c subj₁ arts t₁ st)).log c' e a ≤ 1 ∧
    (∀ p ∈ dispatchPairs st.subs st.log c arts,
      alreadySent st.log c p.1 p.2 = false) := by
  refine ⟨dispatch_preserves_at_most_once _ _ _ _ _ _ _ _
            (dispatch_preserves_at_most_once _ _ _ _ _ _ _ _ hinv), ?_⟩
  intro p hp
  obtain ⟨_, _, hsent⟩ := mem_dispatchPairs _ _ _ _ p.1 p.2 (by simpa using hp)
  exact hsent

/-- Witness for C2: two sweeps of the same one-article batch over a
one-subscriber store leave at most one covering audit row. -/
theorem dispatch_at_most_once_delivery_witness :
    countCovering (dispatch "critical" "s2" [1] 2
        (dispatch "critical" "s1" [1] 1 sampleDState)).log
      "critical" "u@example.com" 1 ≤ 1 :=
  (dispatch_at_most_once_delivery sampleDState "critical" "s1" "s2" [1] 1 2
    "critical" "u@example.com" 1 (by decide)).1

/-- Claim C3: recipient eligibility is never relaxed — every recipient of
a row newly produced by a dispatch run is a stored subscriber with
`verified = true` and `is_active = true`. -/
theorem dispatch_recipients_verified_active (st : DispatchState)
    (c subj : String) (arts : List Nat) (t : Nat)
    (r : AlertRecord) (e : String) (a : Nat)
    (hr : r ∈ (dispatch c subj arts t st).log) (hnotold : r ∉ st.log)
    (hsend : (e, a) ∈ r.sends) :
    ∃ s ∈ st.subs, s.email = e ∧ s.verified = true ∧ s.is_active = true := by
  have hrnew : r.sends = dispatchPairs st.subs st.log c arts := by
    simp only [dispatch, List.mem_append, List.mem_singleton] at hr
    rcases hr with h | h
    · exact absurd h hnotold
    · rw [h]
  rw [hrnew] at hsend
  obtain ⟨⟨s, hs, he, hel⟩, _, _⟩ := mem_dispatchPairs _ _ _ _ _ _ hsend
  refine ⟨s, hs, he, ?_, ?_⟩ <;> simp [eligible] at hel <;> tauto

/-- Witness for C3: the record produced by a concrete dispatch run only
reaches the verified active subscriber. -/
theorem dispatch_recipients_verified_active_witness :
    ∃ s ∈ sampleDState.subs, s.email = "u@example.com" ∧
      s.verified = true ∧ s.is_active = true := by
  refine dispatch_recipients_verified_active sampleDState "critical" "s1" [1] 1
    ⟨"s1", "critical", dispatchPairs sampleDState.subs sampleDState.log "critical" [1], 1⟩
    "u@example.com" 1 ?_ ?_ ?_
  · simp [dispatch]
  · simp [sampleDState]
  · decide

/-- Claim C4: the verification token is single-use and its consumption
atomic — consuming a live matching token flips `verified` to true and
nulls the token in the same update, and a replay of the same token is
rejected as `alreadyVerified` with the row (and `verified`) unchanged. -/
theorem verification_token_single_use (s : Subscriber) (tok : String)
    (h : s.verification_token = some tok) :
    (verifySubscriber s tok).2 = .verifiedOk ∧
    (verifySubscriber s tok).1.verified = true ∧
    (verifySubscriber s tok).1.verification_token = none ∧
    verifySubscriber (verifySubscriber s tok).1 tok
      = ((verifySubscriber s tok).1, .alreadyVerified) := by
  simp [verifySubscriber, h]

/-- Witness for C4: consuming then replaying a concrete token. -/
theorem verification_token_single_use_witness :
    (verifySubscriber sampleSub "v1").2 = .verifiedOk ∧
    (verifySubscriber sampleSub "v1").1.verified = true ∧
    (verifySubscriber sampleSub "v1").1.verification_token = none ∧
    verifySubscriber (verifySubscriber sampleSub "v1").1 "v1"
      = ((verifySubscriber sampleSub "v1").1, .alreadyVerified) :=
  verification_token_single_use sampleSub "v1" rfl

/-- Claim C5: one run of the classify pipeline always leaves the article
in a terminal state — `Classified` or `ClassificationFailed` — for every
article text and every collaborator behavior, never `Unclassified`. -/
theorem classify_pipeline_terminal_state (collab : Nat → CollabResult) (a : Article) :
    (runClassifyPipeline collab a).classification_state = .classified ∨
    (runClassifyPipeline collab a).classification_state = .classificationFailed :=
  applyClassification_terminal a (classify collab (articleText a))

/-- Claim C6: a fallback classification is distinguishable from a real
one — whenever the gateway takes the fallback path the stored row carries
the fallback marker, a non-null priority score from the heuristic, and the
`ClassificationFailed` state that schedules it for re-classification. -/
theorem fallback_classification_marked (collab : Nat → CollabResult)
    (a : Article) (c : Classification)
    (h : classify collab (articleText a) = .fallback c) :
    (runClassifyPipeline collab a).is_fallback = true ∧
    (runClassifyPipeline collab a).priority_score ≠ none ∧
    (runClassifyPipeline collab a).classification_state = .classificationFailed := by
  simp [runClassifyPipeline, h, applyClassification]

/-- Witness for C6: the spec's scenario — a collaborator that always
times out on "Planning Board Meeting Notice". -/
theorem fallback_classification_marked_witness :
    (runClassifyPipeline (fun _ => .timeout) planningArticle).is_fallback = true ∧
    (runClassifyPipeline (fun _ => .timeout) planningArticle).priority_score ≠ none ∧
    (runClassifyPipeline (fun _ => .timeout) planningArticle).classification_state
      = .classificationFailed :=
  fallback_classification_marked (fun _ => .timeout) planningArticle
    (fallbackClassify (articleText planningArticle)) rfl

/-- Claim C7: dedup is performed on the normalized canonical URL — two
candidates with the same canonical URL yield one stored row whose URL is
the normalized form, the second ingest reporting `AlreadyExists`. -/
theorem ingest_dedup_normalized_url (st : List Article) (c₁ c₂ : CandidateRecord)
    (ht₁ : c₁.title ≠ "") (hu₁ : c₁.url ≠ "")
    (ht₂ : c₂.title ≠ "") (hu₂ : c₂.url ≠ "")
    (hsame : normalizeUrl c₂.url = normalizeUrl c₁.url)
    (hnew : countUrl st (normalizeUrl c₁.url) = 0) :
    (ingest st c₁).1 = st ++ [mkArticle c₁ (normalizeUrl c₁.url)] ∧
    (ingest (ingest st c₁).1 c₂).2 = .alreadyExists ∧
    countUrl (ingest (ingest st c₁).1 c₂).1 (normalizeUrl c₁.url) = 1 := by
  have hany := any_url_false_of_countUrl_zero st _ hnew
  have h1 : ingest st c₁ = (st ++ [mkArticle c₁ (normalizeUrl c₁.url)], .inserted) := by
    simp [ingest, ht₁, hu₁, hany]
  have hcount : countUrl (st ++ [mkArticle c₁ (normalizeUrl c₁.url)])
      (normalizeUrl c₁.url) = 1 := by
    rw [countUrl_append, hnew]
    simp [countUrl, mkArticle]
  have hany2 : (st ++ [mkArticle c₁ (normalizeUrl c₁.url)]).any
      (fun a => a.url == normalizeUrl c₂.url) = true := by
    simp [List.any_append, mkArticle, hsame]
  have h2 : ingest (st ++ [mkArticle c₁ (normalizeUrl c₁.url)]) c₂
      = (st ++ [mkArticle c₁ (normalizeUrl c₁.url)], .alreadyExists) := by
    simp [ingest, ht₂, hu₂, hany2]
  rw [h1]
  exact ⟨rfl, by rw [h2], by rw [h2]; exact hcount⟩

/-- Witness for C7: the spec's scenario — `http://x/a?utm=1` and
`http://x/a?utm=2` leave one row stored under `http://x/a`. -/
theorem ingest_dedup_normalized_url_witness :
    (ingest [] exampleCandidate1).1 = [mkArticle exampleCandidate1 "http://x/a"] ∧
    (ingest (ingest [] exampleCandidate1).1 exampleCandidate2).2 = .alreadyExists ∧
    countUrl (ingest (ingest [] exampleCandidate1).1 exampleCandidate2).1
      "http://x/a" = 1 := by
  have hn : normalizeUrl exampleCandidate1.url = "http://x/a" := by decide
  have h := ingest_dedup_normalized_url [] exampleCandidate1 exampleCandidate2
    (by decide) (by decide) (by decide) (by decide) (by decide) (by decide)
  rw [hn] at h
  simpa using h

/-- Claim C8: a `Classified` article is never automatically reclassified —
along every reachable execution of the step relation its state stays
`Classified` and its classification fields are untouched, and a single
step only ever moves `Unclassified → Classified`,
`Unclassified → ClassificationFailed` or
`ClassificationFailed → Classified`. -/
theorem classified_never_auto_reclassified :
    (∀ a b : Article, PipeReaches a b → a.classification_state = .classified →
      b.classification_state = .classified ∧
      b.priority_score = a.priority_score ∧
      b.relevance_score = a.relevance_score ∧
      b.category = a.category ∧
      b.county = a.county ∧
      b.is_fallback = a.is_fallback) ∧
    (∀ a b : Article, PipeStep a b →
      b.classification_state ≠ a.classification_state →
      (a.classification_state = .unclassified ∧
        b.classification_state = .classified) ∨
      (a.classification_state = .unclassified ∧
        b.classification_state = .classificationFailed) ∨
      (a.classification_state = .classificationFailed ∧
        b.classification_state = .classified)) := by
  constructor
  · intro a b hreach hc
    induction hreach with
    | refl => exact ⟨hc, rfl, rfl, rfl, rfl, rfl⟩
    | tail hab hstep ih =>
      obtain ⟨ih1, ih2, ih3, ih4, ih5, ih6⟩ := ih
      have hb := pipeStep_from_classified _ _ hstep ih1
      subst hb
      exact ⟨ih1, ih2, ih3, ih4, ih5, ih6⟩
  · intro a b hstep hne
    cases hstep with
    | classifySuccess c h1 h2 => left; exact ⟨h1, rfl⟩
    | classifyFallback c h1 => right; left; exact ⟨h1, rfl⟩
    | rerunSuccess c h1 h2 => right; right; exact ⟨h1, rfl⟩
    | markNotified => exact absurd rfl hne

/-- Witness for C8: a dispatcher `notified` flip on a classified article
preserves its state and priority. -/
theorem classified_never_auto_reclassified_witness :
    ({ classifiedArticle with notified := true } : Article).classification_state
        = .classified ∧
    ({ classifiedArticle with notified := true } : Article).priority_score
        = classifiedArticle.priority_score := by
  have h := classified_never_auto_reclassified.1 classifiedArticle
    { classifiedArticle with notified := true }
    (Relation.ReflTransGen.single (PipeStep.markNotified classifiedArticle)) rfl
  exact ⟨h.1, h.2.1⟩

/-- Claim C9: unsubscribing only flips `is_active` — the matched row keeps
its email, verified flag, tokens and subscription time, unmatched rows are
untouched, and no pipeline operation (unsubscribe, verification, dispatch)
ever deletes a subscriber row. -/
theorem unsubscribe_flips_only_is_active (store : List Subscriber) (tok : String) :
    (unsubscribeByToken store tok).length = store.length ∧
    (verifyByToken store tok).length = store.length ∧
    (∀ c subj arts t st, (dispatch c subj arts t st).subs = st.subs) ∧
    (∀ s : Subscriber,
      (unsubOne tok s).email = s.email ∧
      (unsubOne tok s).verified = s.verified ∧
      (unsubOne tok s).verification_token = s.verification_token ∧
      (unsubOne tok s).unsubscribe_token = s.unsubscribe_token ∧
      (unsubOne tok s).subscribed_at = s.subscribed_at ∧
      (s.unsubscribe_token = tok → (unsubOne tok s).is_active = false) ∧
      (s.unsubscribe_token ≠ tok → (unsubOne tok s).is_active = s.is_active)) := by
  refine ⟨by simp [unsubscribeByToken], by simp [verifyByToken],
          fun c subj arts t st => rfl, fun s => ?_⟩
  by_cases h : s.unsubscribe_token = tok <;> simp [unsubOne, h]

/-- Witness for C9: unsubscribing a concrete one-row store. -/
theorem unsubscribe_flips_only_is_active_witness :
    (unsubscribeByToken [sampleSub] "u1").length = 1 ∧
    (unsubOne "u1" sampleSub).is_active = false ∧
    (unsubOne "u1" sampleSub).email = sampleSub.email := by
  have h := unsubscribe_flips_only_is_active [sampleSub] "u1"
  exact ⟨h.1, (h.2.2.2 sampleSub).2.2.2.2.2.1 rfl, (h.2.2.2 sampleSub).1⟩

/-- Claim C10: the article-list priority badge is a total function of
`priority_score` with a falsy-zero edge case — no badge on `null` or `0`,
CRITICAL exactly on scores `≥ 8`, HIGH exactly on `6–7`, MEDIUM on every
other non-zero score. -/
theorem getPriorityBadge_total_with_falsy_zero (p : Option Int) :
    (getPriorityBadge p = none ↔ p = none ∨ p = some 0) ∧
    (getPriorityBadge p = some .critical ↔ ∃ v, p = some v ∧ 8 ≤ v) ∧
    (getPriorityBadge p = some .high ↔ ∃ v, p = some v ∧ 6 ≤ v ∧ v ≤ 7) ∧
    (getPriorityBadge p = some .medium ↔ ∃ v, p = some v ∧ v ≠ 0 ∧ v < 6) := by
  cases p with
  | none => simp [getPriorityBadge]
  | some v =>
    refine ⟨?_, ?_, ?_, ?_⟩ <;>
      simp only [getPriorityBadge, Option.some.injEq, reduceCtorEq, false_or] <;>
      split_ifs with h0 h8 h6 <;>
      simp_all <;> omega

end EagleHarbor
